import Mathlib

/-!
Verification development for the registration-service repository.

This file gives a shallow embedding, in Lean, of the verification state
machine (`InitVerification`, `VerifyPhoneCode`, `VerifyActivationCode`,
`PhoneNumberAlreadyInUse`, `checkRequiredManualApproval` of the
verification service) and of the reverse proxy's bearer-token extraction
(`extractUserToken`), and proves properties of those embeddings.

Modelling conventions:
* Kubernetes label/annotation maps (Go `map[string]string`) are modelled as
  `String → Option String`; a Go map read of a missing key yields `""`,
  which is rendered as `.getD ""` at each read site.
* External effects (the host-cluster List queries, the SMS sender, the
  crypto/rand code generator, `PollUpdateSignup`, `time.Parse`/`Format`,
  `md5` hashing, `strconv.ParseFloat`) are modelled as fields of an
  environment record `Env`; a single request is modelled with the update
  closure re-reading the same stored resource (no interleaving writers).
* Machine integers are modelled as `Int` (no overflow arises at the
  magnitudes involved: counters and daily limits).
* `float32` captcha scores are modelled as `ℚ`; the parse function is part
  of the environment.
-/

namespace RegSvc

/-- Errors as produced by the `crterrors` constructors used in the source
(`NewBadRequest`, `NewUnauthorizedError`, `NewForbiddenError`,
`NewNotFoundError`, `NewTooManyRequestsError`, `NewInternalError`) plus
`generic` for a plain `errors.New`. Each constructor keeps the message and
details strings passed at the call site. -/
inductive Err where
  | badRequest (msg details : String)
  | unauthorized (msg details : String)
  | forbidden (msg details : String)
  | notFound (msg details : String)
  | tooManyRequests (msg details : String)
  | internal (details : String)
  | generic (msg : String)
  deriving DecidableEq

/-- Modelled from the spec: the HTTP status code carried by each error kind
(spec §7 "Error kinds"; the `crterrors` package itself is not under src/).
A `generic` error surfaces as an Internal 500. -/
def Err.httpCode : Err → Nat
  | .badRequest _ _ => 400
  | .unauthorized _ _ => 401
  | .forbidden _ _ => 403
  | .notFound _ _ => 404
  | .tooManyRequests _ _ => 429
  | .internal _ => 500
  | .generic _ => 500

/-- Modelled from the spec: the plain-text rendering of an error
(`err.Error()`), written into proxy response bodies by
`http.Error(res, err.Error(), err.Code)`; the message is chained with the
details as `"message: details"` (the proxy tests show bodies of exactly
this chained shape; the `crterrors` package is not under src/). -/
def Err.render : Err → String
  | .badRequest m d => m ++ ": " ++ d
  | .unauthorized m d => m ++ ": " ++ d
  | .forbidden m d => m ++ ": " ++ d
  | .notFound m d => m ++ ": " ++ d
  | .tooManyRequests m d => m ++ ": " ++ d
  | .internal d => d
  | .generic m => m

/-- Functional string map standing for a Go `map[string]string`:
`none` = key absent. -/
def mapSet (m : String → Option String) (k v : String) : String → Option String :=
  fun q => if q = k then some v else m q

/-- Deletion from a functional string map (Go `delete(m, k)`). -/
def mapDel (m : String → Option String) (k : String) : String → Option String :=
  fun q => if q = k then none else m q

/-- The `UserSignup` custom resource, restricted to the parts the
verification service reads and writes: the two string maps, the
`VerificationRequired` and `Deactivated` state bits (`states` package) and
the preferred username from the identity claims. -/
structure UserSignup where
  preferredUsername : String
  labels : String → Option String
  anns : String → Option String
  verificationRequired : Bool
  deactivated : Bool

def UserSignup.setAnn (s : UserSignup) (k v : String) : UserSignup :=
  { s with anns := mapSet s.anns k v }

def UserSignup.delAnn (s : UserSignup) (k : String) : UserSignup :=
  { s with anns := mapDel s.anns k }

def UserSignup.setLbl (s : UserSignup) (k v : String) : UserSignup :=
  { s with labels := mapSet s.labels k v }

/- Annotation and label keys from the external `toolchainv1alpha1` API
package. Only their distinctness matters to the embedding; the values
follow the toolchain label-key prefix convention. -/

def UserSignupVerificationCodeAnnKey : String :=
  "toolchain.dev.openshift.com/verification-code"

def UserVerificationAttemptsAnnKey : String :=
  "toolchain.dev.openshift.com/verification-attempts"

def UserSignupVerificationCounterAnnKey : String :=
  "toolchain.dev.openshift.com/verification-counter"

def UserSignupVerificationInitTimestampAnnKey : String :=
  "toolchain.dev.openshift.com/verification-init-timestamp"

def UserVerificationExpiryAnnKey : String :=
  "toolchain.dev.openshift.com/verification-expiry"

def UserSignupActivationCounterAnnKey : String :=
  "toolchain.dev.openshift.com/activation-counter"

def UserSignupCaptchaScoreAnnKey : String :=
  "toolchain.dev.openshift.com/captcha-score"

def UserSignupUserPhoneHashLabelKey : String :=
  "toolchain.dev.openshift.com/user-phone-hash"

/-- The five verification annotations deleted by a successful
`VerifyPhoneCode`, in the order the source appends them to
`annotationsToDelete`. -/
def verificationAnnKeys : List String :=
  [UserSignupVerificationCodeAnnKey,
   UserVerificationAttemptsAnnKey,
   UserSignupVerificationCounterAnnKey,
   UserSignupVerificationInitTimestampAnnKey,
   UserVerificationExpiryAnnKey]

/-- The relevant knobs of `configuration.RegistrationServiceConfig`
(`cfg.Verification()`). -/
structure Config where
  dailyLimit : Int
  attemptsAllowed : Int
  codeExpiresInMin : Int
  captchaRequiredScore : ℚ
  captchaAllowLowScoreReactivation : Bool

/-- External-world outcomes for a single verification request. Time is an
abstract `Int` axis: `parseTime` stands for
`time.Parse(TimestampLayout, ·)`, `formatTime` for
`Format(TimestampLayout)`; `updateResult` is the outcome of
`PollUpdateSignup` (`none` = the update closure was applied to the stored
resource and accepted). -/
structure Env where
  md5 : String → String
  parseTime : String → Option Int
  formatTime : Int → String
  now : Int
  parseFloat32 : String → Option ℚ
  bannedPhoneHash : String → Bool
  approvedWithPhoneHash : String → List UserSignup
  genCode : Option String
  smsSendOk : Bool
  updateResult : Option Err

/-- 24 hours, and one minute, on the abstract time axis (seconds). -/
def hours24 : Int := 24 * 60 * 60

def minuteSecs : Int := 60

def isDigitCh (c : Char) : Bool := ('0' ≤ c && c ≤ '9')

def digitVal (c : Char) : Nat := c.toNat - ('0').toNat

/-- The numeric value of a non-empty all-digit character list. -/
def digitsVal (cs : List Char) : Option Nat :=
  match cs with
  | [] => none
  | _ => if cs.all isDigitCh then some (cs.foldl (fun a c => a * 10 + digitVal c) 0) else none

/-- Go `strconv.Atoi`: optional sign followed by at least one digit
(the int64 overflow bound is not modelled; the counters involved are
small). -/
def atoi (s : String) : Option Int :=
  match s.data with
  | '+' :: rest => (digitsVal rest).map (fun n => (n : Int))
  | '-' :: rest => (digitsVal rest).map (fun n => -(n : Int))
  | cs => (digitsVal cs).map (fun n => (n : Int))

/-- Go `strconv.Itoa` on the `Int` model. -/
def itoa (n : Int) : String := toString n

def isHexDigit (c : Char) : Bool :=
  (('0' ≤ c && c ≤ '9') || ('a' ≤ c && c ≤ 'f') || ('A' ≤ c && c ≤ 'F'))

/-- `md5Matcher.Match` for the source regex `(?i)[a-f0-9]{32}$`:
an unanchored search whose pattern must end at the end of the text, hence
a match exists exactly when the input has at least 32 characters and its
last 32 characters are (case-insensitive) hex digits. -/
def md5MatcherMatch (s : String) : Bool :=
  (32 ≤ s.data.length && (s.data.drop (s.data.length - 32)).all isHexDigit)

/-- The anchored predicate the spec claims for the reuse check:
the whole input is 32 hex characters, regex `(?i)^[a-f0-9]{32}$`.
Stated from the spec's words, to be compared with `md5MatcherMatch`. -/
def specIsHash32 (s : String) : Bool :=
  (s.data.length = 32 && s.data.all isHexDigit)

/-- The label-selector value computed at the top of
`PhoneNumberAlreadyInUse`: `hash.EncodeString(input)` overridden with the
input itself when `md5Matcher` matches. -/
def phoneLabelValue (md5f : String → String) (phoneNumberOrHash : String) : String :=
  if md5MatcherMatch phoneNumberOrHash then phoneNumberOrHash
  else md5f phoneNumberOrHash

/-- `PhoneNumberAlreadyInUse`. The two List queries are modelled as total
lookups in the environment (their transport-error paths are not modelled);
a `BannedUser` with the phone hash, or an approved `UserSignup` with the
same hash, a different preferred username and the deactivated bit unset,
yields the forbidden error. -/
def PhoneNumberAlreadyInUse (env : Env) (username phoneNumberOrHash : String) :
    Option Err :=
  let labelValue := phoneLabelValue env.md5 phoneNumberOrHash
  if env.bannedPhoneHash labelValue then
    some (.forbidden ("cannot re-register with phone number") ("phone number already in use"))
  else if (env.approvedWithPhoneHash labelValue).any
      (fun u => (u.preferredUsername ≠ username : Bool) && !u.deactivated) then
    some (.forbidden ("cannot re-register with phone number") ("phone number already in use"))
  else none

/-- The user-facing message built by `errors.New` when `PollUpdateSignup`
fails in `InitVerification` / `VerifyPhoneCode`. -/
def pollUpdateFailMsg : String :=
  "there was an error while updating your account - please wait a moment before trying again. If this error persists, please contact the Developer Sandbox team at devsandbox@redhat.com for assistance: error while verifying phone code"

/-- `checkRequiredManualApproval`: an error exactly when the
`captcha_score` annotation is present, parses as a float, and the score is
below the configured required score; an absent or unparseable annotation
passes. -/
def checkRequiredManualApproval (env : Env) (cfg : Config) (signup : UserSignup) :
    Option Err :=
  match signup.anns UserSignupCaptchaScoreAnnKey with
  | none => none
  | some captchaScore =>
    match env.parseFloat32 captchaScore with
    | none => none
    | some fscore =>
      if fscore < cfg.captchaRequiredScore then
        some (.forbidden ("verification failed") ("verification is not available at this time"))
      else none

/-- The reactivation branch at the top of `VerifyPhoneCode`: the manual
approval gate runs unless the `activation_counter` annotation is present,
`CaptchaAllowLowScoreReactivation` is enabled, the annotation parses, and
the parsed counter differs from 1 (the source gates only on
`activationCounter == 1` in the parsed branch). -/
def captchaCheckResult (env : Env) (cfg : Config) (signup : UserSignup) :
    Option Err :=
  match signup.anns UserSignupActivationCounterAnnKey with
  | some activationCounterString =>
    if cfg.captchaAllowLowScoreReactivation then
      match atoi activationCounterString with
      | none => checkRequiredManualApproval env cfg signup
      | some activationCounter =>
        if activationCounter = 1 then checkRequiredManualApproval env cfg signup
        else none
    else checkRequiredManualApproval env cfg signup
  | none => checkRequiredManualApproval env cfg signup

/-- The flat characterization of when `VerifyPhoneCode` skips the captcha
gate (stated for comparison with `captchaCheckResult`): low-score
reactivation is enabled, the `activation_counter` annotation is present
and parses, and the parsed value differs from 1. -/
def captchaGateSkipped (cfg : Config) (signup : UserSignup) : Bool :=
  cfg.captchaAllowLowScoreReactivation &&
    (match signup.anns UserSignupActivationCounterAnnKey with
     | some s => (match atoi s with
                  | some n => (n ≠ 1 : Bool)
                  | none => false)
     | none => false)

/-- The mutation `VerifyPhoneCode` accumulates for `doUpdate`:
`annotationValues` to set (in write order; a later write to the same key
wins, as in a Go map), annotation keys to delete, the
`unsetVerificationRequired` flag, and the `verificationErr` to return. -/
structure VerifyPlan where
  annValues : List (String × String)
  annDeletes : List String
  unsetVR : Bool
  vErr : Option Err

/-- The attempts / expiry / code-comparison chain of `VerifyPhoneCode`
(after the captcha gate and the reuse check). An unparseable
`verification_attempts` is forced to `AttemptsAllowed` (and written back)
so the subsequent attempts check trips; a mismatching code increments the
attempts annotation. -/
def verifyErrChain (env : Env) (cfg : Config) (signup : UserSignup) : Option Err :=
  let attemptsMade :=
    (atoi ((signup.anns UserVerificationAttemptsAnnKey).getD "")).getD cfg.attemptsAllowed
  if cfg.attemptsAllowed ≤ attemptsMade then
    some (.tooManyRequests ("too many verification attempts") (""))
  else
    match env.parseTime ((signup.anns UserVerificationExpiryAnnKey).getD "") with
    | none => some (.internal ("error parsing expiry timestamp"))
    | some exp =>
      if exp < env.now then some (.forbidden ("expired") ("verification code expired"))
      else none

def verifyPlan (env : Env) (cfg : Config) (signup : UserSignup) (code : String) :
    VerifyPlan :=
  let attemptsParsed := atoi ((signup.anns UserVerificationAttemptsAnnKey).getD "")
  let attemptsMade := attemptsParsed.getD cfg.attemptsAllowed
  let ann0 : List (String × String) :=
    match attemptsParsed with
    | none => [(UserVerificationAttemptsAnnKey, itoa cfg.attemptsAllowed)]
    | some _ => []
  match verifyErrChain env cfg signup with
  | some e => { annValues := ann0, annDeletes := [], unsetVR := false, vErr := some e }
  | none =>
    if code = (signup.anns UserSignupVerificationCodeAnnKey).getD "" then
      { annValues := ann0, annDeletes := verificationAnnKeys, unsetVR := true, vErr := none }
    else
      { annValues := ann0 ++ [(UserVerificationAttemptsAnnKey, itoa (attemptsMade + 1))],
        annDeletes := [], unsetVR := false,
        vErr := some (.forbidden ("invalid code") ("the provided code is invalid")) }

/-- The `doUpdate` closure body of `VerifyPhoneCode` applied to the
re-read resource: clear the state bit when requested, write
`annotationValues`, then delete `annotationsToDelete`. -/
def applyVerifyUpdate (signup : UserSignup) (p : VerifyPlan) : UserSignup :=
  let s1 := if p.unsetVR then { signup with verificationRequired := false } else signup
  let s2 := p.annValues.foldl (fun s kv => s.setAnn kv.1 kv.2) s1
  p.annDeletes.foldl (fun s k => s.delAnn k) s2

/-- `VerifyPhoneCode` on a found `UserSignup`: the pair is the stored
resource after the call and the returned error (`none` = success). The
captcha gate and the reuse check return before any update; every later
outcome still runs `doUpdate`, and a failed `PollUpdateSignup` leaves the
resource unchanged and returns the generic update message. -/
def VerifyPhoneCodeFound (env : Env) (cfg : Config) (signup : UserSignup)
    (username code : String) : UserSignup × Option Err :=
  match captchaCheckResult env cfg signup with
  | some e => (signup, some e)
  | none =>
    match PhoneNumberAlreadyInUse env username
        ((signup.labels UserSignupUserPhoneHashLabelKey).getD "") with
    | some _ =>
      (signup, some (.badRequest ("phone number already in use")
        ("the phone number provided for this signup is already in use by an active account")))
    | none =>
      let p := verifyPlan env cfg signup code
      match env.updateResult with
      | none => (applyVerifyUpdate signup p, p.vErr)
      | some _ => (signup, some (.generic pollUpdateFailMsg))

/-- `VerifyPhoneCode` including the initial Get (`none` = not found). -/
def VerifyPhoneCode (env : Env) (cfg : Config) (stored : Option UserSignup)
    (username code : String) : Option UserSignup × Option Err :=
  match stored with
  | none => (none, some (.notFound ("usersignup not found") ("user not found")))
  | some signup =>
    let r := VerifyPhoneCodeFound env cfg signup username code
    (some r.1, r.2)

/-- Outcome of `InitVerification`: the stored resource after the call, the
returned error, and whether `SendNotification` was invoked. -/
structure InitOut where
  signup : UserSignup
  err : Option Err
  smsSent : Bool

/-- The verification-counter read of `InitVerification`: an empty (or
absent) `verification_counter` annotation leaves the counter 0; an
unparseable one forces the counter to the daily limit and writes that
value back. Returns the counter and the annotation writes so far. -/
def initCounterStep (cfg : Config) (signup : UserSignup) :
    Int × List (String × String) :=
  let verificationCounter := (signup.anns UserSignupVerificationCounterAnnKey).getD ""
  if verificationCounter = "" then (0, [])
  else
    match atoi verificationCounter with
    | some counter => (counter, [])
    | none => (cfg.dailyLimit, [(UserSignupVerificationCounterAnnKey, itoa cfg.dailyLimit)])

/-- The 24-hour window check of `InitVerification`: the window resets when
`verification_init_timestamp` is unparseable or `now` is after the parsed
timestamp plus 24 hours. -/
def initReset (env : Env) (signup : UserSignup) : Bool :=
  match env.parseTime ((signup.anns UserSignupVerificationInitTimestampAnnKey).getD "") with
  | none => true
  | some ts => (ts + hours24 < env.now : Bool)

/-- The annotation writes of `InitVerification` up to the daily-limit
check: the possible unparseable-counter write followed, on reset, by the
new timestamp and the zeroed counter. -/
def initAnnValues1 (env : Env) (cfg : Config) (signup : UserSignup) :
    List (String × String) :=
  (initCounterStep cfg signup).2 ++
    (if initReset env signup then
      [(UserSignupVerificationInitTimestampAnnKey, env.formatTime env.now),
       (UserSignupVerificationCounterAnnKey, "0")]
    else [])

/-- The counter value `InitVerification` compares with the daily limit:
zero after a window reset, otherwise the parsed (or forced) counter. -/
def initEffCounter (env : Env) (cfg : Config) (signup : UserSignup) : Int :=
  if initReset env signup then 0 else (initCounterStep cfg signup).1

/-- The `doUpdate` closure body of `InitVerification` applied to the
re-read resource: write the labels, then the annotations, in order. -/
def applyInitUpdate (signup : UserSignup)
    (labelValues annValues : List (String × String)) : UserSignup :=
  let s1 := labelValues.foldl (fun s kv => s.setLbl kv.1 kv.2) signup
  annValues.foldl (fun s kv => s.setAnn kv.1 kv.2) s1

/-- `InitVerification` on a found `UserSignup`. The early returns
(verification not required, phone in use, code-generation failure, SMS
failure) leave the stored resource untouched; the daily-limit error and
the success path both run `doUpdate` before returning. -/
def InitVerificationFound (env : Env) (cfg : Config) (signup : UserSignup)
    (username e164PhoneNumber countryCode : String) : InitOut :=
  if !signup.verificationRequired then
    { signup := signup,
      err := some (.badRequest ("forbidden request") ("verification code will not be sent")),
      smsSent := false }
  else
    match PhoneNumberAlreadyInUse env username e164PhoneNumber with
    | some e =>
      if e.httpCode = 403 then
        { signup := signup,
          err := some (.forbidden ("phone number already in use")
            ("cannot register using phone number: " ++ e164PhoneNumber)),
          smsSent := false }
      else
        { signup := signup,
          err := some (.internal ("could not lookup users by phone number")),
          smsSent := false }
    | none =>
      let labelValues := [(UserSignupUserPhoneHashLabelKey, env.md5 e164PhoneNumber)]
      let annV1 := initAnnValues1 env cfg signup
      let counter := initEffCounter env cfg signup
      if cfg.dailyLimit ≤ counter then
        match env.updateResult with
        | none =>
          { signup := applyInitUpdate signup labelValues annV1,
            err := some (.forbidden ("daily limit exceeded")
              ("cannot generate new verification code")),
            smsSent := false }
        | some _ =>
          { signup := signup, err := some (.generic pollUpdateFailMsg), smsSent := false }
      else
        match env.genCode with
        | none =>
          { signup := signup,
            err := some (.internal ("error while generating verification code")),
            smsSent := false }
        | some verificationCode =>
          let annV2 := annV1 ++
            [(UserVerificationAttemptsAnnKey, "0"),
             (UserSignupVerificationCounterAnnKey, itoa (counter + 1)),
             (UserSignupVerificationCodeAnnKey, verificationCode),
             (UserVerificationExpiryAnnKey,
              env.formatTime (env.now + cfg.codeExpiresInMin * minuteSecs))]
          if !env.smsSendOk then
            { signup := signup,
              err := some (.internal ("error while sending verification code")),
              smsSent := true }
          else
            match env.updateResult with
            | none =>
              { signup := applyInitUpdate signup labelValues annV2, err := none,
                smsSent := true }
            | some _ =>
              { signup := signup, err := some (.generic pollUpdateFailMsg), smsSent := true }

/-- `checkAttempts` (activation-code flow): an absent or empty
`verification_attempts` annotation counts as 0 attempts; an unparseable
one is an internal error; a value at or above `AttemptsAllowed` is a
too-many-requests error. -/
def checkAttempts (cfg : Config) (signup : UserSignup) : Int × Option Err :=
  match signup.anns UserVerificationAttemptsAnnKey with
  | none => (0, none)
  | some v =>
    if v = "" then (0, none)
    else
      match atoi v with
      | none => (-1, some (.internal ("error converting annotation value to integer")))
      | some attemptsMade =>
        if cfg.attemptsAllowed ≤ attemptsMade then
          (attemptsMade, some (.tooManyRequests ("too many verification attempts") v))
        else (attemptsMade, none)

/-- Outcomes of the external calls made inside `VerifyActivationCode`:
`socialEventCheck` is `GetAndValidateSocialEvent` (the validation error,
or `none` with the event found and valid) and `applySocialEvent` is
`UpdateUserSignupWithSocialEvent` applied to the re-read resource. -/
structure ActEnv where
  socialEventCheck : String → Option Err
  applySocialEvent : String → UserSignup → UserSignup
  updateResult : Option Err

/-- `VerifyActivationCode` on a found `UserSignup` (one run of the update
closure): on a validation error the attempts annotation is incremented and
the validation error is remembered in `errToReturn`; on validation success
the event is applied and the attempts annotation deleted. A failing
`PollUpdateSignup` leaves the stored resource unchanged and its error is
returned only when `errToReturn` is still nil. -/
def VerifyActivationCodeFound (aenv : ActEnv) (cfg : Config) (signup : UserSignup)
    (username code : String) : UserSignup × Option Err :=
  match (checkAttempts cfg signup).2 with
  | some e => (signup, some e)
  | none =>
    let attemptsMade := (checkAttempts cfg signup).1
    match aenv.socialEventCheck code with
    | some validationErr =>
      let updated := signup.setAnn UserVerificationAttemptsAnnKey (itoa (attemptsMade + 1))
      match aenv.updateResult with
      | none => (updated, some validationErr)
      | some _ => (signup, some validationErr)
    | none =>
      let updated := (aenv.applySocialEvent code signup).delAnn UserVerificationAttemptsAnnKey
      match aenv.updateResult with
      | none => (updated, none)
      | some updateErr => (signup, some updateErr)

/-- Boolean list-prefix test (character lists). -/
def isPrefixList : List Char → List Char → Bool
  | [], _ => true
  | _ :: _, [] => false
  | a :: as, b :: bs => (a = b : Bool) && isPrefixList as bs

/-- Boolean substring-occurrence test: `occursInList needle hay` holds
when `needle` occurs contiguously somewhere in `hay`. -/
def occursInList (needle : List Char) : List Char → Bool
  | [] => isPrefixList needle []
  | c :: rest => isPrefixList needle (c :: rest) || occursInList needle rest

/-- Fuelled core of Go `strings.Split` for a non-empty separator: scan
left to right, cut at each (non-overlapping) occurrence of `sep`. The
fuel is an upper bound on the scanned length; `goSplit` supplies enough
for the branch to be unreachable. -/
def goSplitCore (sep : List Char) : Nat → List Char → List Char → List (List Char)
  | 0, s, acc => [acc.reverse ++ s]
  | _ + 1, [], acc => [acc.reverse]
  | fuel + 1, c :: rest, acc =>
    if isPrefixList sep (c :: rest) then
      acc.reverse :: goSplitCore sep fuel ((c :: rest).drop sep.length) []
    else goSplitCore sep fuel rest (c :: acc)

/-- Go `strings.Split(s, sep)` for a non-empty `sep`. -/
def goSplit (s sep : String) : List String :=
  (goSplitCore sep.data (s.data.length + 1) s.data []).map (fun l => String.mk l)

/-- `extractUserToken`: split the `Authorization` header on `"Bearer "`;
fewer than two pieces is the unauthorized "no token found" error, else the
second piece is the token. -/
def extractUserToken (authHeader : String) : Except Err String :=
  match goSplit authHeader "Bearer " with
  | _ :: token1 :: _ => .ok token1
  | _ => .error (.unauthorized ("no token found") ("a Bearer token is expected"))

/-- The token-extraction stage of `handleRequestAndRedirect`: an absent
`Authorization` header reads as `""` (Go `http.Header.Get`); a failed
`createContext` is answered through `responseWithError` with the
unauthorized wrapper, whose code and rendered body are returned
(`none` = extraction succeeded and the pipeline continues). -/
def authShortCircuit (authHeader : String) : Option (Nat × String) :=
  match extractUserToken authHeader with
  | .error e =>
    some ((Err.unauthorized ("unable to create a context") (e.render)).httpCode,
      (Err.unauthorized ("unable to create a context") (e.render)).render)
  | .ok _ => none

/-! ### Concrete fixtures used by counterexamples and witnesses -/

/-- A signup with verification required and empty maps. -/
def baseSignup : UserSignup :=
  { preferredUsername := "user1", labels := fun _ => none, anns := fun _ => none,
    verificationRequired := true, deactivated := false }

/-- The default-ish configuration (daily limit 5, 3 attempts, required
captcha score 1 on the ℚ model, low-score reactivation allowed). -/
def baseCfg : Config :=
  { dailyLimit := 5, attemptsAllowed := 3, codeExpiresInMin := 5,
    captchaRequiredScore := 1, captchaAllowLowScoreReactivation := true }

/-- A benign environment: no banned phones, no other signups, SMS and
update succeed, every timestamp string parses to 10, now is 5, every
captcha score string parses to 0. -/
def baseEnv : Env :=
  { md5 := fun _ => ("stubhash"), parseTime := fun _ => some 10,
    formatTime := fun t => toString t, now := 5,
    parseFloat32 := fun _ => some 0, bannedPhoneHash := fun _ => false,
    approvedWithPhoneHash := fun _ => [], genCode := some ("123456"),
    smsSendOk := true, updateResult := none }

/-- Annotations of a signup mid-phone-verification: 0 attempts, an expiry
annotation that parses, stored code 123456. -/
def c1Anns : String → Option String :=
  mapSet (mapSet (mapSet (fun _ => none) UserVerificationAttemptsAnnKey ("0")) UserVerificationExpiryAnnKey ("exp")) UserSignupVerificationCodeAnnKey ("123456")

def c1Signup : UserSignup := { baseSignup with anns := c1Anns }

/-- `c1Anns` plus `activation_counter = "0"` and a low captcha score. -/
def c3Anns : String → Option String :=
  mapSet (mapSet c1Anns UserSignupActivationCounterAnnKey ("0")) UserSignupCaptchaScoreAnnKey ("0.1")

def c3Signup : UserSignup := { c1Signup with anns := c3Anns }

/-- A signup carrying only a low captcha score annotation. -/
def c3wSignup : UserSignup :=
  { baseSignup with anns := mapSet (fun _ => none) UserSignupCaptchaScoreAnnKey ("0.1") }

/-- Low-score reactivation disabled. -/
def c3wCfg : Config := { baseCfg with captchaAllowLowScoreReactivation := false }

def c4Input : String := "zaaaaaaaaaaaaaaaaaaaaaaaaaaaaaaaa"

/-- Environment in which every phone hash is banned. -/
def c5Env : Env := { baseEnv with bannedPhoneHash := fun _ => true }

/-- Daily limit zero, and an unparseable init timestamp (window reset). -/
def c6Cfg : Config := { baseCfg with dailyLimit := 0 }

def c6Env : Env := { baseEnv with parseTime := fun _ => none }

/-- SMS sending fails. -/
def c7Env : Env := { baseEnv with smsSendOk := false }

/-- Activation-code externals for the both-errors scenario: validation
fails and the update loop fails too. -/
def c8Aenv : ActEnv :=
  { socialEventCheck := fun _ =>
      some (.forbidden ("invalid code") ("the provided code is invalid")),
    applySocialEvent := fun _ s => s,
    updateResult := some (.generic ("update conflict")) }

/-! ### Helper lemmas about the map and fold operations -/

theorem anns_foldl_del (t : List String) (s : UserSignup) (k : String) :
    (t.foldl (fun s k => s.delAnn k) s).anns k =
      if k ∈ t then none else s.anns k := by
  induction t generalizing s with
  | nil => simp
  | cons a t ih =>
    simp only [List.foldl_cons, ih, List.mem_cons]
    by_cases hk : k = a
    · subst hk
      simp [UserSignup.delAnn, mapDel]
    · simp [UserSignup.delAnn, mapDel, hk]

theorem vr_foldl_setAnn (l : List (String × String)) (s : UserSignup) :
    (l.foldl (fun s kv => s.setAnn kv.1 kv.2) s).verificationRequired =
      s.verificationRequired := by
  induction l generalizing s with
  | nil => rfl
  | cons kv l ih => simpa [UserSignup.setAnn] using ih (s.setAnn kv.1 kv.2)

theorem vr_foldl_delAnn (t : List String) (s : UserSignup) :
    (t.foldl (fun s k => s.delAnn k) s).verificationRequired =
      s.verificationRequired := by
  induction t generalizing s with
  | nil => rfl
  | cons a t ih => simpa [UserSignup.delAnn] using ih (s.delAnn a)

theorem labels_foldl_setAnn (l : List (String × String)) (s : UserSignup) :
    (l.foldl (fun s kv => s.setAnn kv.1 kv.2) s).labels = s.labels := by
  induction l generalizing s with
  | nil => rfl
  | cons kv l ih => simpa [UserSignup.setAnn] using ih (s.setAnn kv.1 kv.2)

theorem anns_foldl_setLbl (l : List (String × String)) (s : UserSignup) :
    (l.foldl (fun s kv => s.setLbl kv.1 kv.2) s).anns = s.anns := by
  induction l generalizing s with
  | nil => rfl
  | cons kv l ih => simpa [UserSignup.setLbl] using ih (s.setLbl kv.1 kv.2)

/-- A successful `verifyPlan` asks `doUpdate` to delete the five
verification annotations and to clear the state bit. -/
theorem verifyPlan_success (env : Env) (cfg : Config) (signup : UserSignup)
    (code : String) (h : (verifyPlan env cfg signup code).vErr = none) :
    (verifyPlan env cfg signup code).annDeletes = verificationAnnKeys ∧
    (verifyPlan env cfg signup code).unsetVR = true := by
  unfold verifyPlan at h ⊢
  rcases hchain : verifyErrChain env cfg signup with _ | e
  · by_cases hcode : code = (signup.anns UserSignupVerificationCodeAnnKey).getD ""
    · simp [hchain, hcode]
    · simp [hchain, hcode] at h
  · simp [hchain] at h

/-! ### C1 -/

/-- C1: for every successful `VerifyPhoneCode` call (the provided code
equals the stored `verification_code`, attempts below the allowed limit,
expiry not passed, captcha gate passed, phone not in use, update
accepted), the resulting UserSignup has the verification-required state
bit set to false and none of the five verification annotations
(`verification_code`, `verification_attempts`, `verification_counter`,
`verification_init_timestamp`, `verification_expiry`) present. -/
theorem C1_verify_success_clears_verification (env : Env) (cfg : Config)
    (signup : UserSignup) (username code : String)
    (h : (VerifyPhoneCodeFound env cfg signup username code).2 = none) :
    (VerifyPhoneCodeFound env cfg signup username code).1.verificationRequired = false ∧
    ∀ k ∈ verificationAnnKeys,
      (VerifyPhoneCodeFound env cfg signup username code).1.anns k = none := by
  unfold VerifyPhoneCodeFound at h ⊢
  rcases hc : captchaCheckResult env cfg signup with _ | e
  · rcases hp : PhoneNumberAlreadyInUse env username
        ((signup.labels UserSignupUserPhoneHashLabelKey).getD "") with _ | e
    · rcases hu : env.updateResult with _ | e
      · simp only [hc, hp, hu] at h ⊢
        obtain ⟨hdel, hvr⟩ := verifyPlan_success env cfg signup code h
        constructor
        · simp [applyVerifyUpdate, hvr, vr_foldl_delAnn, vr_foldl_setAnn]
        · intro k hk
          simp [applyVerifyUpdate, hdel, anns_foldl_del, hk]
      · simp [hc, hp, hu] at h
    · simp [hc, hp] at h
  · simp [hc] at h

/-- Witness for C1 at a concrete successful verification. -/
theorem C1_witness :
    (VerifyPhoneCodeFound baseEnv baseCfg c1Signup ("user1") ("123456")).2 = none ∧
    (VerifyPhoneCodeFound baseEnv baseCfg c1Signup ("user1") ("123456")).1.verificationRequired
      = false ∧
    ∀ k ∈ verificationAnnKeys,
      (VerifyPhoneCodeFound baseEnv baseCfg c1Signup ("user1") ("123456")).1.anns k = none := by
  have h : (VerifyPhoneCodeFound baseEnv baseCfg c1Signup ("user1") ("123456")).2 = none := by
    rfl
  exact ⟨h, C1_verify_success_clears_verification baseEnv baseCfg c1Signup _ _ h⟩

/-! ### C2 -/

/-- C2: for every `VerifyPhoneCode` call that fails because the provided
code differs from the stored `verification_code` (attempts parse below
the limit, expiry parses and is not passed, captcha gate and reuse check
passed, update accepted), the stored `verification_attempts` annotation
increases by exactly one and the call returns the 403 Forbidden error
"the provided code is invalid". -/
theorem C2_verify_mismatch_increments_attempts (env : Env) (cfg : Config)
    (signup : UserSignup) (username code : String) (n exp : Int)
    (hc : captchaCheckResult env cfg signup = none)
    (hp : PhoneNumberAlreadyInUse env username
      ((signup.labels UserSignupUserPhoneHashLabelKey).getD "") = none)
    (ha : atoi ((signup.anns UserVerificationAttemptsAnnKey).getD "") = some n)
    (hn : n < cfg.attemptsAllowed)
    (he : env.parseTime ((signup.anns UserVerificationExpiryAnnKey).getD "") = some exp)
    (hexp : ¬ exp < env.now)
    (hcode : code ≠ (signup.anns UserSignupVerificationCodeAnnKey).getD "")
    (hu : env.updateResult = none) :
    (VerifyPhoneCodeFound env cfg signup username code).2 =
      some (.forbidden ("invalid code") ("the provided code is invalid")) ∧
    (VerifyPhoneCodeFound env cfg signup username code).1.anns
      UserVerificationAttemptsAnnKey = some (itoa (n + 1)) ∧
    Err.httpCode (.forbidden ("invalid code") ("the provided code is invalid")) = 403 := by
  have hchain : verifyErrChain env cfg signup = none := by
    unfold verifyErrChain
    rw [ha]
    simp only [Option.getD_some]
    rw [if_neg (not_le.mpr hn), he]
    simp [hexp]
  have hplan : verifyPlan env cfg signup code =
      { annValues := [(UserVerificationAttemptsAnnKey, itoa (n + 1))],
        annDeletes := [], unsetVR := false,
        vErr := some (.forbidden ("invalid code") ("the provided code is invalid")) } := by
    unfold verifyPlan
    rw [hchain]
    simp [ha, hcode]
  unfold VerifyPhoneCodeFound
  simp [hc, hp, hu, hplan, applyVerifyUpdate, UserSignup.setAnn, mapSet, Err.httpCode]

/-- Witness for C2 at a concrete mismatching code. -/
theorem C2_witness :
    (VerifyPhoneCodeFound baseEnv baseCfg c1Signup ("user1") ("999999")).2 =
      some (.forbidden ("invalid code") ("the provided code is invalid")) ∧
    (VerifyPhoneCodeFound baseEnv baseCfg c1Signup ("user1") ("999999")).1.anns
      UserVerificationAttemptsAnnKey = some ("1") := by
  have h := C2_verify_mismatch_increments_attempts baseEnv baseCfg c1Signup
    ("user1") ("999999") 0 10 rfl rfl rfl (by decide) rfl (by decide) (by decide) rfl
  exact ⟨h.1, h.2.1⟩

/-! ### C3 -/

/-- C3 counterexample: with low-score reactivation enabled and
`activation_counter = "0"` — parseable and not greater than 1, so the
claim requires the captcha gate to run — the code nevertheless skips the
gate: although the captcha score parses below the required score (the
gate, had it run, would have returned the 403 error), the whole call
succeeds. -/
theorem C3_counterexample :
    atoi ("0") = some 0 ∧ ¬ ((0 : Int) > 1) ∧
    baseCfg.captchaAllowLowScoreReactivation = true ∧
    checkRequiredManualApproval baseEnv baseCfg c3Signup =
      some (.forbidden ("verification failed")
        ("verification is not available at this time")) ∧
    captchaCheckResult baseEnv baseCfg c3Signup = none ∧
    (VerifyPhoneCodeFound baseEnv baseCfg c3Signup ("user1") ("123456")).2 = none := by
  refine ⟨rfl, by decide, rfl, ?_, ?_, ?_⟩ <;> rfl

/-- C3 amended: the captcha gate is skipped exactly when
`allow_low_score_reactivation` is true AND the `activation_counter`
annotation is present, parses, and differs from 1 (so also for parseable
values below 1, not only for values strictly greater than 1); in every
other case a `captcha_score` annotation parsing below the required score
yields the 403 error "verification is not available at this time". -/
theorem C3_amended_captcha_gate (env : Env) (cfg : Config) (signup : UserSignup)
    (username code : String) :
    captchaCheckResult env cfg signup =
      (if captchaGateSkipped cfg signup then none
       else checkRequiredManualApproval env cfg signup) ∧
    (∀ sc q, captchaGateSkipped cfg signup = false →
      signup.anns UserSignupCaptchaScoreAnnKey = some sc →
      env.parseFloat32 sc = some q → q < cfg.captchaRequiredScore →
      (VerifyPhoneCodeFound env cfg signup username code).2 =
        some (.forbidden ("verification failed")
          ("verification is not available at this time"))) := by
  have hmain : captchaCheckResult env cfg signup =
      (if captchaGateSkipped cfg signup then none
       else checkRequiredManualApproval env cfg signup) := by
    unfold captchaCheckResult captchaGateSkipped
    rcases hann : signup.anns UserSignupActivationCounterAnnKey with _ | s
    · simp
    · by_cases hflag : cfg.captchaAllowLowScoreReactivation = true
      · rcases hparse : atoi s with _ | m
        · simp [hflag, hparse]
        · by_cases hm : m = 1
          · simp [hflag, hparse, hm]
          · simp [hflag, hparse, hm]
      · simp [Bool.not_eq_true] at hflag
        simp [hflag]
  refine ⟨hmain, ?_⟩
  intro sc q hskip hsc hq hlt
  have hgate : checkRequiredManualApproval env cfg signup =
      some (.forbidden ("verification failed")
        ("verification is not available at this time")) := by
    unfold checkRequiredManualApproval
    simp [hsc, hq, hlt]
  have hcc : captchaCheckResult env cfg signup =
      some (.forbidden ("verification failed")
        ("verification is not available at this time")) := by
    rw [hmain, hskip]
    simp [hgate]
  unfold VerifyPhoneCodeFound
  simp [hcc]

/-- Witness for the amended C3: with reactivation disabled the gate runs
and a low captcha score yields the 403 error. -/
theorem C3_witness :
    (VerifyPhoneCodeFound baseEnv c3wCfg c3wSignup ("user1") ("123456")).2 =
      some (.forbidden ("verification failed")
        ("verification is not available at this time")) :=
  (C3_amended_captcha_gate baseEnv c3wCfg c3wSignup ("user1") ("123456")).2
    ("0.1") 0 rfl rfl rfl (by norm_num [c3wCfg, baseCfg])

/-! ### C4 -/

/-- C4 counterexample: a 33-character input whose last 32 characters are
hex digits is treated as an already-computed hash (the label value is the
input itself, not its md5 image), although the whole input is not 32 hex
characters, contradicting the anchored regex of the claim. -/
theorem C4_counterexample :
    specIsHash32 c4Input = false ∧
    phoneLabelValue (fun _ => ("not-a-hash")) c4Input = c4Input ∧
    ("not-a-hash" : String) ≠ c4Input := by
  exact ⟨rfl, rfl, by decide⟩

/-- C4 amended: the reuse check treats the input as an already-computed
hash exactly when the source regex `(?i)[a-f0-9]{32}$` matches, i.e. when
the input has a suffix of 32 (case-insensitive) hex characters — the
pattern is not anchored at the start, so any input ending in 32 hex
characters qualifies, not only a whole-input 32-hex string; in that case
the input itself is the label-selector value, otherwise its md5. -/
theorem C4_amended_md5_detection (md5f : String → String) (s : String) :
    (md5MatcherMatch s = true ↔
      ∃ pre suf : List Char, s.data = pre ++ suf ∧ suf.length = 32 ∧
        ∀ c ∈ suf, isHexDigit c = true) ∧
    (md5MatcherMatch s = true → phoneLabelValue md5f s = s) ∧
    (md5MatcherMatch s = false → phoneLabelValue md5f s = md5f s) := by
  refine ⟨⟨?_, ?_⟩, ?_, ?_⟩
  · intro h
    unfold md5MatcherMatch at h
    simp only [Bool.and_eq_true, decide_eq_true_eq, List.all_eq_true] at h
    obtain ⟨hlen, hall⟩ := h
    refine ⟨s.data.take (s.data.length - 32), s.data.drop (s.data.length - 32),
      (List.take_append_drop _ _).symm, ?_, hall⟩
    rw [List.length_drop]
    omega
  · rintro ⟨pre, suf, hs, hlen, hall⟩
    have hl : s.data.length = pre.length + 32 := by
      rw [hs, List.length_append, hlen]
    have hidx : s.data.length - 32 = pre.length := by omega
    unfold md5MatcherMatch
    simp only [Bool.and_eq_true, decide_eq_true_eq, List.all_eq_true]
    refine ⟨by omega, ?_⟩
    rw [hs]
    have hidx2 : (pre ++ suf).length - 32 = pre.length := by
      rw [List.length_append, hlen]
      omega
    rw [hidx2, List.drop_left]
    exact hall
  · intro h
    simp [phoneLabelValue, h]
  · intro h
    simp [phoneLabelValue, h]

/-- Witness for the amended C4: the hash branch taken at a concrete
matching input. -/
theorem C4_witness :
    phoneLabelValue (fun _ => ("not-a-hash")) c4Input = c4Input :=
  (C4_amended_md5_detection (fun _ => ("not-a-hash")) c4Input).2.1 rfl

/-! ### C5 -/

/-- C5 counterexample: when the stored phone hash is already in use,
`VerifyPhoneCode` returns the 400 Bad Request error
"phone number already in use" — not a 403 Forbidden error as the claim
states. -/
theorem C5_counterexample :
    (VerifyPhoneCodeFound c5Env baseCfg c1Signup ("user1") ("123456")).2 =
      some (.badRequest ("phone number already in use")
        ("the phone number provided for this signup is already in use by an active account")) ∧
    Err.httpCode (.badRequest ("phone number already in use")
      ("the phone number provided for this signup is already in use by an active account"))
      = 400 ∧
    (400 : Nat) ≠ 403 := by
  exact ⟨rfl, rfl, by decide⟩

/-- C5 amended: when `VerifyPhoneCode` finds the stored phone hash in use
(after the captcha gate passed), it returns a 400 Bad Request error with
message "phone number already in use" and leaves the stored resource
untouched. -/
theorem C5_amended_phone_in_use_bad_request (env : Env) (cfg : Config)
    (signup : UserSignup) (username code : String) (e : Err)
    (hc : captchaCheckResult env cfg signup = none)
    (hp : PhoneNumberAlreadyInUse env username
      ((signup.labels UserSignupUserPhoneHashLabelKey).getD "") = some e) :
    (VerifyPhoneCodeFound env cfg signup username code).2 =
      some (.badRequest ("phone number already in use")
        ("the phone number provided for this signup is already in use by an active account")) ∧
    ((VerifyPhoneCodeFound env cfg signup username code).2.map Err.httpCode) = some 400 ∧
    (VerifyPhoneCodeFound env cfg signup username code).1 = signup := by
  unfold VerifyPhoneCodeFound
  simp [hc, hp, Err.httpCode]

/-- Witness for the amended C5. -/
theorem C5_witness :
    (VerifyPhoneCodeFound c5Env baseCfg c1Signup ("user1") ("123456")).1 = c1Signup :=
  (C5_amended_phone_in_use_bad_request c5Env baseCfg c1Signup ("user1") ("123456")
    (.forbidden ("cannot re-register with phone number") ("phone number already in use"))
    rfl rfl).2.2

/-! ### C6 -/

/-- C6: in `InitVerification`, when the `verification_init_timestamp`
annotation is unparseable or older than 24 hours, the counter used for
the daily-limit check is reset to 0 (the new timestamp and zeroed counter
are queued for writing); and whenever the (possibly reset) counter is at
or above the configured daily limit, the call returns the 403 Forbidden
error "daily limit exceeded" and no SMS is sent. -/
theorem C6_init_daily_limit (env : Env) (cfg : Config) (signup : UserSignup)
    (username phone cc : String)
    (hvr : signup.verificationRequired = true)
    (hp : PhoneNumberAlreadyInUse env username phone = none)
    (hu : env.updateResult = none)
    (hlim : cfg.dailyLimit ≤ initEffCounter env cfg signup) :
    (initReset env signup = true → initEffCounter env cfg signup = 0) ∧
    (InitVerificationFound env cfg signup username phone cc).err =
      some (.forbidden ("daily limit exceeded")
        ("cannot generate new verification code")) ∧
    Err.httpCode (.forbidden ("daily limit exceeded")
      ("cannot generate new verification code")) = 403 ∧
    (InitVerificationFound env cfg signup username phone cc).smsSent = false := by
  refine ⟨fun hr => by simp [initEffCounter, hr], ?_⟩
  unfold InitVerificationFound
  simp [hvr, hp, hu, hlim, Err.httpCode]

/-- Witness for C6: daily limit 0 with an unparseable init timestamp. -/
theorem C6_witness :
    (InitVerificationFound c6Env c6Cfg baseSignup ("u") ("123") ("1")).err =
      some (.forbidden ("daily limit exceeded")
        ("cannot generate new verification code")) ∧
    (InitVerificationFound c6Env c6Cfg baseSignup ("u") ("123") ("1")).smsSent = false := by
  have h := C6_init_daily_limit c6Env c6Cfg baseSignup ("u") ("123") ("1")
    rfl rfl rfl (by decide)
  exact ⟨h.2.1, h.2.2.2⟩

/-! ### C7 -/

/-- C7: in `InitVerification`, the SMS send happens before the resource
update: if the SMS send fails, the call returns the 500 Internal error
"error while sending verification code" and the stored UserSignup is left
completely unchanged (no annotation or label is persisted), whatever the
update outcome would have been. -/
theorem C7_init_sms_failure (env : Env) (cfg : Config) (signup : UserSignup)
    (username phone cc c : String)
    (hvr : signup.verificationRequired = true)
    (hp : PhoneNumberAlreadyInUse env username phone = none)
    (hlt : initEffCounter env cfg signup < cfg.dailyLimit)
    (hgen : env.genCode = some c)
    (hsms : env.smsSendOk = false) :
    (InitVerificationFound env cfg signup username phone cc).signup = signup ∧
    (InitVerificationFound env cfg signup username phone cc).err =
      some (.internal ("error while sending verification code")) ∧
    Err.httpCode (.internal ("error while sending verification code")) = 500 ∧
    (InitVerificationFound env cfg signup username phone cc).smsSent = true := by
  unfold InitVerificationFound
  simp [hvr, hp, hgen, hsms, not_le.mpr hlt, Err.httpCode]

/-- Witness for C7: SMS failure with an otherwise healthy request. -/
theorem C7_witness :
    (InitVerificationFound c7Env baseCfg baseSignup ("u") ("123") ("1")).signup =
      baseSignup ∧
    (InitVerificationFound c7Env baseCfg baseSignup ("u") ("123") ("1")).err =
      some (.internal ("error while sending verification code")) := by
  have h := C7_init_sms_failure c7Env baseCfg baseSignup ("u") ("123") ("1") ("123456")
    rfl rfl (by decide) rfl rfl
  exact ⟨h.1, h.2.1⟩

/-! ### C8 -/

/-- C8: in `VerifyActivationCode` (attempts check passed), a validation
error from the social-event check is returned to the caller whatever the
update loop does; the update-loop error is returned only when no
validation error occurred. -/
theorem C8_activation_validation_error_preferred (aenv : ActEnv) (cfg : Config)
    (signup : UserSignup) (username code : String)
    (hatt : (checkAttempts cfg signup).2 = none) :
    (∀ vErr, aenv.socialEventCheck code = some vErr →
      (VerifyActivationCodeFound aenv cfg signup username code).2 = some vErr) ∧
    (aenv.socialEventCheck code = none →
      (VerifyActivationCodeFound aenv cfg signup username code).2 = aenv.updateResult) := by
  constructor
  · intro vErr hv
    unfold VerifyActivationCodeFound
    rcases hu : aenv.updateResult with _ | e <;> simp [hatt, hv, hu]
  · intro hv
    unfold VerifyActivationCodeFound
    rcases hu : aenv.updateResult with _ | e <;> simp [hatt, hv, hu]

/-- Witness for C8: validation and update both fail; the validation error
is returned. -/
theorem C8_witness :
    (VerifyActivationCodeFound c8Aenv baseCfg baseSignup ("user1") ("event")).2 =
      some (.forbidden ("invalid code") ("the provided code is invalid")) :=
  (C8_activation_validation_error_preferred c8Aenv baseCfg baseSignup
    ("user1") ("event") rfl).1
    (.forbidden ("invalid code") ("the provided code is invalid")) rfl

/-! ### C10 -/

/-- C10: when `InitVerification` fails with the daily-limit error
(update accepted), the update loop has still run: the `phone_number_hash`
label is persisted, and when the 24-hour window was reset the new
`verification_init_timestamp` and zeroed `verification_counter`
annotations are persisted too — the stored resource is not left
unchanged on this error path. -/
theorem C10_init_daily_limit_persists (env : Env) (cfg : Config)
    (signup : UserSignup) (username phone cc : String)
    (hvr : signup.verificationRequired = true)
    (hp : PhoneNumberAlreadyInUse env username phone = none)
    (hu : env.updateResult = none)
    (hlim : cfg.dailyLimit ≤ initEffCounter env cfg signup) :
    (InitVerificationFound env cfg signup username phone cc).signup.labels
      UserSignupUserPhoneHashLabelKey = some (env.md5 phone) ∧
    (initReset env signup = true →
      (InitVerificationFound env cfg signup username phone cc).signup.anns
        UserSignupVerificationInitTimestampAnnKey = some (env.formatTime env.now) ∧
      (InitVerificationFound env cfg signup username phone cc).signup.anns
        UserSignupVerificationCounterAnnKey = some ("0")) ∧
    (InitVerificationFound env cfg signup username phone cc).err =
      some (.forbidden ("daily limit exceeded")
        ("cannot generate new verification code")) := by
  have hout : InitVerificationFound env cfg signup username phone cc =
      { signup := applyInitUpdate signup
          [(UserSignupUserPhoneHashLabelKey, env.md5 phone)]
          (initAnnValues1 env cfg signup),
        err := some (.forbidden ("daily limit exceeded")
          ("cannot generate new verification code")),
        smsSent := false } := by
    unfold InitVerificationFound
    simp [hvr, hp, hu, hlim]
  rw [hout]
  refine ⟨?_, ?_, rfl⟩
  · unfold applyInitUpdate
    rw [labels_foldl_setAnn]
    simp [UserSignup.setLbl, mapSet]
  · intro hr
    unfold applyInitUpdate initAnnValues1
    rw [hr]
    simp only [if_pos]
    rw [List.foldl_append]
    constructor <;>
      simp +decide [UserSignup.setAnn, mapSet,
        UserSignupVerificationInitTimestampAnnKey, UserSignupVerificationCounterAnnKey]

/-- Witness for C10: the daily-limit error path persists the phone hash
label and, after a window reset, the zeroed counter. -/
theorem C10_witness :
    (InitVerificationFound c6Env c6Cfg baseSignup ("u") ("123") ("1")).signup.labels
      UserSignupUserPhoneHashLabelKey = some ("stubhash") ∧
    (InitVerificationFound c6Env c6Cfg baseSignup ("u") ("123") ("1")).signup.anns
      UserSignupVerificationCounterAnnKey = some ("0") := by
  have h := C10_init_daily_limit_persists c6Env c6Cfg baseSignup ("u") ("123") ("1")
    rfl rfl rfl (by decide)
  exact ⟨h.1, (h.2.1 rfl).2⟩

/-! ### C9 -/

theorem goSplitCore_ne_nil (sep : List Char) (fuel : Nat) (s acc : List Char) :
    goSplitCore sep fuel s acc ≠ [] := by
  induction fuel generalizing s acc with
  | zero => simp [goSplitCore]
  | succ n ih =>
    cases s with
    | nil => simp [goSplitCore]
    | cons c rest =>
      simp only [goSplitCore]
      split
      · simp
      · exact ih rest (c :: acc)

/-- The split has at least two pieces exactly when the separator occurs
in the scanned text (for enough fuel and a non-empty separator). -/
theorem goSplitCore_two_iff (sep : List Char) (hsep : sep ≠ []) :
    ∀ (fuel : Nat) (s acc : List Char), s.length < fuel →
      (2 ≤ (goSplitCore sep fuel s acc).length ↔ occursInList sep s = true) := by
  intro fuel
  induction fuel with
  | zero =>
    intro s acc h
    exact absurd h (Nat.not_lt_zero _)
  | succ n ih =>
    intro s acc h
    cases s with
    | nil =>
      rcases sep with _ | ⟨a, as⟩
      · exact absurd rfl hsep
      · simp [goSplitCore, occursInList, isPrefixList]
    | cons c rest =>
      simp only [goSplitCore]
      by_cases hpre : isPrefixList sep (c :: rest) = true
      · rw [if_pos hpre]
        constructor
        · intro _
          simp [occursInList, hpre]
        · intro _
          have hne := goSplitCore_ne_nil sep n ((c :: rest).drop sep.length) []
          rcases hg : goSplitCore sep n ((c :: rest).drop sep.length) [] with _ | ⟨x, t⟩
          · exact absurd hg hne
          · simp [hg]
      · rw [if_neg hpre]
        have hlen : rest.length < n := by
          simp only [List.length_cons] at h
          omega
        rw [ih rest (c :: acc) hlen]
        simp [occursInList, hpre]

/-- `extractUserToken` accepts a header exactly when `"Bearer "` occurs in
it as a substring. -/
theorem extractUserToken_ok_iff (a : String) :
    (∃ t, extractUserToken a = .ok t) ↔
      occursInList (("Bearer ").data) a.data = true := by
  have h2 := goSplitCore_two_iff (("Bearer ").data) (by decide) (a.data.length + 1)
    a.data [] (Nat.lt_succ_self _)
  unfold extractUserToken goSplit
  rcases hg : goSplitCore (("Bearer ").data) (a.data.length + 1) a.data [] with _ | ⟨x, xs⟩
  · exact absurd hg (goSplitCore_ne_nil _ _ _ _)
  · rcases xs with _ | ⟨y, t⟩
    · rw [hg] at h2
      simp only [List.length_cons, List.length_nil] at h2
      have hocc : occursInList (("Bearer ").data) a.data = false := by
        rcases hb : occursInList (("Bearer ").data) a.data
        · rfl
        · exact absurd (h2.mpr hb) (by omega)
      simp [hg, hocc]
    · rw [hg] at h2
      have hocc : occursInList (("Bearer ").data) a.data = true := by
        apply h2.mp
        simp
      simp [hg, hocc]

/-- C9 counterexample: the header "xBearer y" does not start with
"Bearer " — it is not of the exact form `Bearer <token>` — yet the token
"y" is accepted. -/
theorem C9_counterexample :
    extractUserToken ("xBearer y") = .ok ("y") ∧
    isPrefixList (("Bearer ").data) (("xBearer y").data) = false := by
  exact ⟨rfl, rfl⟩

/-- C9 amended: the bearer token is accepted exactly when the
`Authorization` header contains `"Bearer "` as a substring (the accepted
token is the segment after the first occurrence), not only for headers of
the exact form `Bearer <token>`; and when no `Authorization` header is
present (the header reads as the empty string) the proxy answers 401 with
a plain-text body containing "no token found". -/
theorem C9_amended_bearer_extraction (a : String) :
    ((∃ t, extractUserToken a = .ok t) ↔
      occursInList (("Bearer ").data) a.data = true) ∧
    authShortCircuit "" =
      some (401,
        "unable to create a context: no token found: a Bearer token is expected") ∧
    occursInList (("no token found").data)
      (("unable to create a context: no token found: a Bearer token is expected").data)
      = true := by
  exact ⟨extractUserToken_ok_iff a, rfl, by decide⟩

/-- Witness for the amended C9 at the empty header. -/
theorem C9_witness :
    authShortCircuit "" =
      some (401,
        "unable to create a context: no token found: a Bearer token is expected") :=
  (C9_amended_bearer_extraction "").2.1

end RegSvc
